import Mathlib

/-!
Verification of the Orpheus handler-routing core and retrying API client
(repository `argus`, package `orpheus`), as a shallow embedding in Lean 4.

The embedding covers:
* `orpheus/models/response.py` — the frozen dataclass `HandlerResponse`;
* `orpheus/orpheus_core.py` — `OrpheusCore._load_handlers` (sort by class
  name, move the `ChatHandler` fallback to the end) and
  `OrpheusCore.route_query` (first-match routing);
* `orpheus/services/gemini_client.py` — `query` with its bounded
  exponential-backoff retry loop;
* the three concrete handlers (`ChatHandler`, `GitHandler`,
  `SystemHandler`), with their external effects (network, subprocess,
  terminal) abstracted as oracle parameters.

Machine-level conventions: Python exceptions are modelled with `Except`
(an uncaught exception is an `Except.error`), Python `None`-able strings
with `Option String`, `dict[str, Any]` with an association list over a
small inductive `PyValue`, and the network with an oracle mapping the
attempt index to the outcome of that HTTP request (the request payload —
URL, headers, prompt body — never influences the client's own control
flow, so it is not materialised).
-/

namespace Orpheus

/-- A Python value stored in a response's `metadata` dict (`dict[str, Any]`);
the embedding fixes a representative set of primitive Python values. -/
inductive PyValue : Type where
  | pstr (s : String)
  | pint (n : Int)
  | pbool (b : Bool)
  | pnone
deriving DecidableEq, Repr

/-- A Python `dict[str, PyValue]` as an association list (first binding of a
key is the live one; a genuine Python dict additionally has no duplicate
keys, expressed where needed by `PyDict.nodupKeys`). -/
abbrev PyDict := List (String × PyValue)

/-- The well-formedness invariant of a real Python dict: each key occurs at
most once. -/
def PyDict.nodupKeys (d : PyDict) : Prop := (d.map Prod.fst).Nodup

instance (d : PyDict) : Decidable (PyDict.nodupKeys d) := by
  unfold PyDict.nodupKeys; infer_instance

/-- Python `dict` equality (`d == e`): same keys and, for each common key,
the same value.  On the association-list model this is the executable
two-sided containment check. -/
def pyDictEq (d e : PyDict) : Bool :=
  d.all (fun kv => e.lookup kv.1 == some kv.2) &&
  e.all (fun kv => d.lookup kv.1 == some kv.2)

/-- `orpheus/models/response.py`, class `HandlerResponse`
(`@dataclass(frozen=True)`): `status`, `display_message`, and `metadata`
with default `field(default_factory=dict)`. -/
structure HandlerResponse : Type where
  status : String
  display_message : String
  metadata : PyDict := []
deriving Repr

/-- Constructing a `HandlerResponse` as Python call sites do: `metadata` is
an optional keyword argument; when omitted the `default_factory` supplies a
fresh empty dict. -/
def HandlerResponse.make (status display_message : String)
    (metadata : Option PyDict) : HandlerResponse :=
  match metadata with
  | none => { status := status, display_message := display_message }
  | some d => { status := status, display_message := display_message, metadata := d }

/-- The three fields of the frozen dataclass, as assignment targets. -/
inductive ResponseField : Type where
  | status
  | display_message
  | metadata
deriving DecidableEq

/-- Python-level errors the embedding can observe. -/
inductive PyError : Type where
  | frozenInstanceError
  | typeError (msg : String)
deriving DecidableEq

/-- Attribute assignment on a `HandlerResponse`.  `@dataclass(frozen=True)`
generates a `__setattr__` that unconditionally raises
`FrozenInstanceError`, so every assignment fails and the instance is
unchanged. -/
def HandlerResponse.setattr (_ : HandlerResponse) (_ : ResponseField)
    (_ : PyValue) : Except PyError HandlerResponse :=
  .error .frozenInstanceError

/-- The generated dataclass `__eq__`: field-tuple comparison, with the
`metadata` dicts compared by Python dict equality. -/
def HandlerResponse.pyEq (r t : HandlerResponse) : Bool :=
  r.status == t.status && r.display_message == t.display_message &&
    pyDictEq r.metadata t.metadata

/-- Hashing one `metadata` dict: Python dicts are unhashable, so `hash`
always raises `TypeError`. -/
def pyHashDict (_ : PyDict) : Except PyError Int :=
  .error (.typeError "unhashable type: dict")

/-- The generated dataclass `__hash__`: the hash of the field tuple, given
an (interpreter-seeded) string-hash function.  Since the `metadata` field
is a dict, the tuple hash always propagates the dict's `TypeError`. -/
def HandlerResponse.pyHash (hashStr : String → Int) (r : HandlerResponse) :
    Except PyError Int := do
  let h1 := hashStr r.status
  let h2 := hashStr r.display_message
  let h3 ← pyHashDict r.metadata
  return h1 + h2 + h3

/-! ### The retrying Gemini client (`orpheus/services/gemini_client.py`) -/

/-- Python's `str.strip()`: drop leading and trailing whitespace. -/
def pyStrip (s : String) : String :=
  ⟨((s.data.dropWhile Char.isWhitespace).reverse.dropWhile Char.isWhitespace).reverse⟩

/-- The outcome of one HTTP attempt (`requests.post` + `raise_for_status` +
payload extraction), as seen by the client's exception handling:
* `ok body` — 2xx response whose JSON carries
  `candidates[0].content.parts[0].text = body`;
* `badShape` — 2xx response whose JSON lacks those fields
  (`KeyError`/`IndexError` during extraction);
* `httpError status msg` — `raise_for_status` raised an HTTP error with a
  response attached (`str(e) = msg`);
* `connError msg` — a `RequestException` with no response attached
  (connection/DNS/timeout failure, `str(e) = msg`). -/
inductive Attempt : Type where
  | ok (body : String)
  | badShape
  | httpError (status : Nat) (msg : String)
  | connError (msg : String)

/-- A transport oracle: the outcome the network produces for the n-th
attempt (0-indexed) of one `query` call. -/
abbrev Transport := Nat → Attempt

/-- Everything observable about one run of `gemini_client.query`: the
returned `(answer, error)` pair, the number of network attempts actually
issued, and the list of `time.sleep` durations in order. -/
structure ClientRun : Type where
  answer : Option String
  error : Option String
  attempts : Nat
  delays : List Nat
deriving Repr

/-- The retry loop `for attempt in range(max_retries)` of
`gemini_client.query`, from loop counter `attempt` with `remaining`
iterations left; when the iterations are exhausted the fixed
"unavailable" pair is returned.  On a 5xx error (`500 <= status < 600`)
the code sleeps `base_delay * (2 ** attempt)` and continues; any other
`RequestException` returns the communication error at once; a
`KeyError`/`IndexError` returns the format error at once; success returns
`answer.strip()`. -/
def queryFrom (transport : Transport) (baseDelay : Nat) :
    Nat → Nat → ClientRun
  | _, 0 =>
      { answer := none
        error := some "The Gemini server remains unavailable after several attempts."
        attempts := 0, delays := [] }
  | attempt, remaining + 1 =>
      match transport attempt with
      | .ok body => { answer := some (pyStrip body), error := none, attempts := 1, delays := [] }
      | .badShape =>
          { answer := none
            error := some "Unexpected response format from the Gemini API."
            attempts := 1, delays := [] }
      | .httpError status msg =>
          if 500 ≤ status ∧ status < 600 then
            let rest := queryFrom transport baseDelay (attempt + 1) remaining
            { answer := rest.answer, error := rest.error
              attempts := rest.attempts + 1
              delays := baseDelay * 2 ^ attempt :: rest.delays }
          else
            { answer := none
              error := some ("Error communicating with the Gemini API: " ++ msg)
              attempts := 1, delays := [] }
      | .connError msg =>
          { answer := none
            error := some ("Error communicating with the Gemini API: " ++ msg)
            attempts := 1, delays := [] }

/-- `gemini_client.query`: a missing or empty (`if not api_key`) key fails
immediately with the configuration error and no network traffic; otherwise
the retry loop runs with `max_retries = 3` and `base_delay = 1`. -/
def geminiQuery (apiKey : Option String) (transport : Transport) : ClientRun :=
  match apiKey with
  | none =>
      { answer := none, error := some "GEMINI_API_KEY not found in configuration."
        attempts := 0, delays := [] }
  | some k =>
      if k = "" then
        { answer := none, error := some "GEMINI_API_KEY not found in configuration."
          attempts := 0, delays := [] }
      else
        queryFrom transport 1 0 3

/-! ### Handlers and the routing core (`orpheus/orpheus_core.py`) -/

/-- A loaded handler instance, as `OrpheusCore` sees it: its class name
(`h.__class__.__name__`, the sort key), whether it is the designated
fallback (`isinstance(h, ChatHandler)`), and the two contract methods.
`process` returns `Except`: `.error` models `process` raising an uncaught
Python exception. -/
structure Handler : Type where
  name : String
  isFallback : Bool
  can_handle : String → Bool
  process : String → Except String HandlerResponse

/-- The fixed response `route_query` builds when no handler claims the
query. -/
def notHandledResponse : HandlerResponse :=
  { status := "not_handled"
    display_message := "Sorry, Architect. I don't have a handler for this task." }

/-- `OrpheusCore.route_query`: scan the handlers in order; the first one
whose `can_handle` returns `True` processes the query and its result is
returned at once (`route_query` installs no exception handler, so an
exception raised by `process` propagates to the caller); if none claims
it, the fixed `not_handled` response is returned. -/
def route_query : List Handler → String → Except String HandlerResponse
  | [], _ => .ok notHandledResponse
  | h :: rest, q =>
      if h.can_handle q then h.process q else route_query rest q

/-- `route_query` instrumented with its observable call trace: the result,
the names of the handlers whose `can_handle` was consulted (in order), and
the names of the handlers whose `process` was invoked. -/
structure RouteTrace : Type where
  result : Except String HandlerResponse
  consulted : List String
  processed : List String

/-- The instrumented routing loop; its `result` coincides with
`route_query` (proved below). -/
def routeInstr : List Handler → String → RouteTrace
  | [], _ => { result := .ok notHandledResponse, consulted := [], processed := [] }
  | h :: rest, q =>
      if h.can_handle q then
        { result := h.process q, consulted := [h.name], processed := [h.name] }
      else
        let t := routeInstr rest q
        { result := t.result, consulted := h.name :: t.consulted, processed := t.processed }

/-- The fallback-relocation pass of `OrpheusCore._load_handlers`: find the
first handler that is an instance of `ChatHandler`, pop it, and append it
at the end; the rest keep their relative order. -/
def moveFallbackToEnd : List Handler → List Handler
  | [] => []
  | h :: rest => if h.isFallback then rest ++ [h] else h :: moveFallbackToEnd rest

/-- The ordering used by `loaded_handlers.sort(key=lambda h:
h.__class__.__name__)`: lexicographic comparison of the class names by
code point (Python string comparison), stated on the character lists so
that it evaluates. -/
def byName (a b : Handler) : Prop := a.name.data ≤ b.name.data

instance : DecidableRel byName := fun a b => by
  unfold byName; infer_instance

instance : IsTotal Handler byName := ⟨fun a b => le_total a.name.data b.name.data⟩

instance : IsTrans Handler byName := ⟨fun _ _ _ hab hbc => le_trans hab hbc⟩

/-- `byName` coincides with Mathlib's lexicographic order on `String`. -/
theorem byName_iff (a b : Handler) : byName a b ↔ a.name ≤ b.name :=
  (String.le_iff_toList_le).symm

/-- `OrpheusCore._load_handlers`, after discovery: sort the discovered
handlers ascending by class name (Python's `list.sort` is a stable sort by
the key; the embedding uses a stable insertion sort), then move the first
`ChatHandler` instance, if any, to the end. -/
def load_handlers (discovered : List Handler) : List Handler :=
  moveFallbackToEnd (discovered.insertionSort byName)

/-! ### The concrete handlers (`orpheus/query_handlers/`) -/

/-- Python's `str.lower()`: lowercase the string character by character. -/
def pyLower (s : String) : String := ⟨s.data.map Char.toLower⟩

/-- Python truthiness of an optional string (`if error:`): `None` and the
empty string are falsy. -/
def optTruthy : Option String → Bool
  | none => false
  | some s => !s.isEmpty

/-- Python's f-string rendering of an optional string: `None` prints as
`"None"`. -/
def pyStr : Option String → String
  | none => "None"
  | some s => s

/-- Python's substring test `needle in haystack`. -/
def pyInStr (needle haystack : String) : Bool :=
  decide (needle.data <:+: haystack.data)

/-- `SystemHandler.can_handle`: lowercase the query and test membership in
the literal list `["cls"]`. -/
def systemCanHandle (query : String) : Bool :=
  ["cls"].contains (pyLower query)

/-- `SystemHandler.process`: clear the terminal (an external effect, not
modelled) and return the fixed success response. -/
def systemProcess (_query : String) : Except String HandlerResponse :=
  .ok { status := "success", display_message := "🎶 Terminal screen has been cleared." }

/-- The `SystemHandler` instance. -/
def systemHandler : Handler :=
  { name := "SystemHandler", isFallback := false
    can_handle := systemCanHandle, process := systemProcess }

/-- `ChatHandler.can_handle`: `True` for every query (the catch-all
fallback). -/
def chatCanHandle (_query : String) : Bool := true

/-- `ChatHandler.process`: build the persona prompt (string assembly only,
with no effect on control flow), delegate to `gemini_client.query`, and
convert the client's `(answer, error)` pair into a `HandlerResponse`:
a truthy error yields status `failed` with the error as message, otherwise
status `success` with the formatted answer. -/
def chatProcess (apiKey : Option String) (transport : Transport)
    (_query : String) : Except String HandlerResponse :=
  let run := geminiQuery apiKey transport
  if optTruthy run.error then
    .ok { status := "failed", display_message := pyStr run.error }
  else
    .ok { status := "success"
          display_message := "\n🎶 Orpheus:\n" ++ pyStr run.answer ++ "\n" }

/-- The `ChatHandler` instance (parametrised by the client's environment:
the configured key and the network oracle). -/
def chatHandler (apiKey : Option String) (transport : Transport) : Handler :=
  { name := "ChatHandler", isFallback := true
    can_handle := chatCanHandle, process := chatProcess apiKey transport }

/-- `GitHandler.can_handle`: the lowercased query contains the literal
substring `"commit msg"`. -/
def gitCanHandle (query : String) : Bool :=
  pyInStr "commit msg" (pyLower query)

/-- The outcome of running `git diff --staged` (an external subprocess,
abstracted as an oracle value). -/
inductive GitOutcome : Type where
  | ok (stdout : String)
  | calledProcessError (stderr : String)
  | gitNotFound

/-- `GitHandler._get_staged_diff`: empty stdout means nothing is staged;
subprocess errors are converted to `(None, message)` pairs. -/
def getStagedDiff : GitOutcome → Option String × Option String
  | .ok stdout =>
      if stdout = "" then
        (none, some "There are no changes staged. Use 'git add <file>' first.")
      else (some stdout, none)
  | .calledProcessError stderr =>
      (none, some ("Error executing git diff: " ++ stderr))
  | .gitNotFound =>
      (none, some "Command 'git' not found. This handler must be run inside a Git repository.")

/-- `GitHandler.process`: get the staged diff, fail on a diff error; build
the commit-message prompt (string assembly only), query the client, fail
on a client error; otherwise return the formatted suggestion. -/
def gitProcess (apiKey : Option String) (transport : Transport)
    (git : GitOutcome) (_query : String) : Except String HandlerResponse :=
  let (_diffText, diffError) := getStagedDiff git
  if optTruthy diffError then
    .ok { status := "failed", display_message := pyStr diffError }
  else
    let run := geminiQuery apiKey transport
    if optTruthy run.error then
      .ok { status := "failed", display_message := pyStr run.error }
    else
      .ok { status := "success"
            display_message :=
              "\n🎶 AI-Generated Commit Suggestion:\n\n" ++
              "--------------------------------------\n" ++
              pyStr run.answer ++ "\n" ++
              "--------------------------------------\n" }

/-- The `GitHandler` instance (parametrised by the client environment and
the subprocess oracle). -/
def gitHandler (apiKey : Option String) (transport : Transport)
    (git : GitOutcome) : Handler :=
  { name := "GitHandler", isFallback := false
    can_handle := gitCanHandle, process := gitProcess apiKey transport git }

/-! ### Helper lemmas -/

/-- The instrumented routing loop computes the same result as
`route_query`. -/
theorem routeInstr_result (hs : List Handler) (q : String) :
    (routeInstr hs q).result = route_query hs q := by
  induction hs with
  | nil => rfl
  | cons a t ih =>
      by_cases hc : a.can_handle q <;> simp [routeInstr, route_query, hc, ih]

/-- When some handler claims the query, `route_query` returns the result
of `process` on the first such handler. -/
theorem route_query_find_some {hs : List Handler} {q : String} {h : Handler}
    (hf : hs.find? (fun x => x.can_handle q) = some h) :
    route_query hs q = h.process q := by
  induction hs with
  | nil => simp at hf
  | cons a t ih =>
      by_cases hc : a.can_handle q
      · rw [List.find?_cons_of_pos t hc] at hf
        cases hf
        simp [route_query, hc]
      · rw [List.find?_cons_of_neg t (by simpa using hc)] at hf
        simp [route_query, hc, ih hf]

/-- When some handler claims the query, exactly that handler's `process`
is invoked, and `can_handle` is consulted exactly on the prefix up to and
including it. -/
theorem routeInstr_find_some {hs : List Handler} {q : String} {h : Handler}
    (hf : hs.find? (fun x => x.can_handle q) = some h) :
    (routeInstr hs q).processed = [h.name] ∧
      (routeInstr hs q).consulted =
        (hs.takeWhile (fun x => !x.can_handle q)).map Handler.name ++ [h.name] := by
  induction hs with
  | nil => simp at hf
  | cons a t ih =>
      by_cases hc : a.can_handle q
      · rw [List.find?_cons_of_pos t hc] at hf
        cases hf
        simp [routeInstr, hc, List.takeWhile_cons_of_neg (show ¬(!h.can_handle q) = true by simp [hc])]
      · have hcf : a.can_handle q = false := by simpa using hc
        rw [List.find?_cons_of_neg t (by simpa using hc)] at hf
        rcases ih hf with ⟨h1, h2⟩
        simp [routeInstr, hcf, h1, h2,
          List.takeWhile_cons_of_pos (show (!a.can_handle q) = true by simp [hcf])]

/-- When no handler claims the query, no `process` is invoked and the
fixed `not_handled` response comes back. -/
theorem routeInstr_find_none {hs : List Handler} {q : String}
    (hf : hs.find? (fun x => x.can_handle q) = none) :
    route_query hs q = .ok notHandledResponse ∧ (routeInstr hs q).processed = [] := by
  induction hs with
  | nil => simp [route_query, routeInstr]
  | cons a t ih =>
      rcases List.find?_eq_none.mp hf a (List.mem_cons_self a t) with hc
      have hc' : a.can_handle q = false := by simpa using hc
      have ht : t.find? (fun x => x.can_handle q) = none := by
        apply List.find?_eq_none.mpr
        intro x hx
        exact List.find?_eq_none.mp hf x (List.mem_cons_of_mem a hx)
      rcases ih ht with ⟨h1, h2⟩
      constructor
      · simp [route_query, hc', h1]
      · simp [routeInstr, hc', h2]

/-- If some member of a handler list is the fallback, relocating the first
fallback yields a list of the form `l' ++ [fb]` where `fb` is a fallback
and `l'` is a sublist of the input. -/
theorem moveFallbackToEnd_eq {l : List Handler}
    (h : ∃ x ∈ l, x.isFallback = true) :
    ∃ l' fb, moveFallbackToEnd l = l' ++ [fb] ∧ fb.isFallback = true ∧ l'.Sublist l := by
  induction l with
  | nil => simp at h
  | cons a t ih =>
      by_cases ha : a.isFallback = true
      · exact ⟨t, a, by simp [moveFallbackToEnd, ha], ha, List.sublist_cons_self a t⟩
      · have h' : ∃ x ∈ t, x.isFallback = true := by
          rcases h with ⟨x, hx, hfb⟩
          rcases List.mem_cons.mp hx with rfl | hx
          · exact absurd hfb ha
          · exact ⟨x, hx, hfb⟩
        rcases ih h' with ⟨l', fb, heq, hfb, hsub⟩
        exact ⟨a :: l', fb, by simp [moveFallbackToEnd, ha, heq], hfb, hsub.cons₂ a⟩

/-! ### The claims -/

/-- **C1.** For every registry built from a handler set containing the
designated fallback handler (`ChatHandler`), the ordered handler list
produced by `_load_handlers` ends with the fallback, and all elements
before it are sorted in ascending lexicographic order by their type
name. -/
theorem load_handlers_fallback_last_sorted (discovered : List Handler)
    (h : ∃ x ∈ discovered, x.isFallback = true) :
    ∃ fb, (load_handlers discovered).getLast? = some fb ∧ fb.isFallback = true ∧
      List.Sorted (· ≤ ·) ((load_handlers discovered).dropLast.map Handler.name) := by
  have hsorted : List.Sorted byName (discovered.insertionSort byName) :=
    List.sorted_insertionSort byName discovered
  have hmem : ∃ x ∈ discovered.insertionSort byName, x.isFallback = true := by
    rcases h with ⟨x, hx, hfb⟩
    exact ⟨x, (List.mem_insertionSort byName).mpr hx, hfb⟩
  rcases moveFallbackToEnd_eq hmem with ⟨l', fb, heq, hfb, hsub⟩
  refine ⟨fb, ?_, hfb, ?_⟩
  · unfold load_handlers
    rw [heq]
    exact List.getLast?_concat _
  · unfold load_handlers
    rw [heq, List.dropLast_concat]
    have hl' : List.Pairwise byName l' := List.Pairwise.sublist hsub hsorted
    exact List.pairwise_map.mpr (hl'.imp (fun hab => (byName_iff _ _).mp hab))

/-- A transport whose every request fails with HTTP 503. -/
def always503 : Transport := fun _ => .httpError 503 "503 Server Error: Service Unavailable"

/-- A discovered-handler list for concrete witnesses (oracle: the network
is down, no git). -/
def wDiscovered : List Handler :=
  [systemHandler, chatHandler none always503, gitHandler none always503 .gitNotFound]

/-- Witness for C1 at a concrete three-handler registry. -/
theorem load_handlers_fallback_last_sorted_witness :
    (∃ x ∈ wDiscovered, x.isFallback = true) ∧
    (∃ fb, (load_handlers wDiscovered).getLast? = some fb ∧ fb.isFallback = true ∧
      List.Sorted (· ≤ ·) ((load_handlers wDiscovered).dropLast.map Handler.name)) :=
  have hyp : ∃ x ∈ wDiscovered, x.isFallback = true :=
    ⟨chatHandler none always503, by simp [wDiscovered], rfl⟩
  ⟨hyp, load_handlers_fallback_last_sorted wDiscovered hyp⟩

/-- **C2.** For every query, `route_query` invokes `process` on at most
one handler; when some handler claims the query, the invoked handler is
the first (in list order) whose `can_handle` is true, its result is
returned as the routing result, and no handler after it is consulted
(`can_handle` runs exactly on the prefix up to and including the match);
when none claims it, no `process` runs at all. -/
theorem route_query_first_match (hs : List Handler) (q : String) :
    (routeInstr hs q).processed.length ≤ 1 ∧
    (∀ h, hs.find? (fun x => x.can_handle q) = some h →
        route_query hs q = h.process q ∧
        (routeInstr hs q).processed = [h.name] ∧
        (routeInstr hs q).consulted =
          (hs.takeWhile (fun x => !x.can_handle q)).map Handler.name ++ [h.name]) ∧
    (hs.find? (fun x => x.can_handle q) = none → (routeInstr hs q).processed = []) := by
  refine ⟨?_, ?_, ?_⟩
  · cases hf : hs.find? (fun x => x.can_handle q) with
    | none => simp [(routeInstr_find_none hf).2]
    | some h => simp [(routeInstr_find_some hf).1]
  · intro h hf
    exact ⟨route_query_find_some hf, (routeInstr_find_some hf).1, (routeInstr_find_some hf).2⟩
  · intro hf
    exact (routeInstr_find_none hf).2

/-- Witness for C2: in the concrete registry, the query `"cls"` is claimed
by `SystemHandler` (the first match), which alone processes it. -/
theorem route_query_first_match_witness :
    ((load_handlers wDiscovered).find? (fun x => x.can_handle "cls") = some systemHandler) ∧
    (route_query (load_handlers wDiscovered) "cls" = systemHandler.process "cls" ∧
      (routeInstr (load_handlers wDiscovered) "cls").processed = [systemHandler.name] ∧
      (routeInstr (load_handlers wDiscovered) "cls").consulted =
        ((load_handlers wDiscovered).takeWhile (fun x => !x.can_handle "cls")).map
          Handler.name ++ [systemHandler.name]) :=
  have hf : (load_handlers wDiscovered).find? (fun x => x.can_handle "cls") =
      some systemHandler := by rfl
  ⟨hf, (route_query_first_match (load_handlers wDiscovered) "cls").2.1 systemHandler hf⟩

/-- **C8.** For every query no handler claims, `route_query` returns the
`not_handled` response with the fixed apology message, and no handler's
`process` is invoked. -/
theorem route_query_no_match_not_handled (hs : List Handler) (q : String)
    (h : ∀ x ∈ hs, x.can_handle q = false) :
    route_query hs q = .ok
      { status := "not_handled"
        display_message := "Sorry, Architect. I don't have a handler for this task."
        metadata := [] } ∧
    (routeInstr hs q).processed = [] := by
  have hf : hs.find? (fun x => x.can_handle q) = none :=
    List.find?_eq_none.mpr (fun x hx => by simp [h x hx])
  rcases routeInstr_find_none hf with ⟨h1, h2⟩
  exact ⟨h1, h2⟩

/-- Witness for C8: neither `SystemHandler` nor `GitHandler` claims
`"hello"`, so a registry of just those two returns `not_handled`. -/
theorem route_query_no_match_not_handled_witness :
    (∀ x ∈ [systemHandler, gitHandler none always503 GitOutcome.gitNotFound],
        x.can_handle "hello" = false) ∧
    (route_query [systemHandler, gitHandler none always503 GitOutcome.gitNotFound] "hello" =
      .ok { status := "not_handled"
            display_message := "Sorry, Architect. I don't have a handler for this task."
            metadata := [] } ∧
    (routeInstr [systemHandler, gitHandler none always503 GitOutcome.gitNotFound]
        "hello").processed = []) :=
  have hyp : ∀ x ∈ [systemHandler, gitHandler none always503 GitOutcome.gitNotFound],
      x.can_handle "hello" = false := by
    intro x hx
    rcases List.mem_cons.mp hx with rfl | hx
    · decide
    · rcases List.mem_cons.mp hx with rfl | hx
      · decide
      · simp at hx
  ⟨hyp, route_query_no_match_not_handled _ "hello" hyp⟩

/-- A transport that fails with HTTP 503 on the first two attempts and
succeeds on the third. -/
def twice503then200 : Transport := fun n =>
  if n < 2 then .httpError 503 "503 Server Error: Service Unavailable" else .ok "pong"

/-- **C3 (counterexample).** With a transport that always returns 503, the
three delays are `1, 2, 4` over only 3 attempts, so the last backoff sleep
happens after the final attempt, with no retry following it: the number of
delays is not bounded by the number of retries (`attempts - 1`),
contradicting "a delay is applied only before a retry, never after the
final attempt". -/
theorem backoff_after_final_attempt_counterexample :
    (geminiQuery (some "key") always503).attempts = 3 ∧
    (geminiQuery (some "key") always503).delays = [1, 2, 4] ∧
    ¬ ((geminiQuery (some "key") always503).delays.length + 1 ≤
        (geminiQuery (some "key") always503).attempts) := by
  refine ⟨rfl, rfl, ?_⟩
  intro hle
  simp only [show (geminiQuery (some "key") always503).delays = [1, 2, 4] from rfl,
    show (geminiQuery (some "key") always503).attempts = 3 from rfl] at hle
  simp at hle

/-- **C3 (amended).** The delay before retry attempt `k` (0-indexed,
`k ≥ 1`) equals `baseDelay * 2^(k-1)` time-units — the i-th recorded delay
(0-indexed `i = k-1`) is `baseDelay * 2^i`; with a transport returning 503
twice then 200, `query` returns the third attempt's success text after
delays `1, 2`.  (Unlike the original claim, a delay is *not* applied only
before a retry: per the counterexample, the same backoff sleep also runs
after a final transient failure.) -/
theorem backoff_delays_amended :
    (∀ (transport : Transport) (baseDelay first remaining i : Nat),
        i < (queryFrom transport baseDelay first remaining).delays.length →
        (queryFrom transport baseDelay first remaining).delays.getD i 0 =
          baseDelay * 2 ^ (first + i)) ∧
    geminiQuery (some "key") twice503then200 =
      { answer := some "pong", error := none, attempts := 3, delays := [1, 2] } := by
  constructor
  · intro transport baseDelay first remaining
    induction remaining generalizing first with
    | zero => intro i hi; simp [queryFrom] at hi
    | succ r ih =>
        intro i hi
        cases htr : transport first with
        | ok body =>
            have he : queryFrom transport baseDelay first (r + 1) =
                { answer := some (pyStrip body), error := none, attempts := 1, delays := [] } := by
              simp only [queryFrom, htr]
            rw [he] at hi
            simp at hi
        | badShape =>
            have he : queryFrom transport baseDelay first (r + 1) =
                { answer := none
                  error := some "Unexpected response format from the Gemini API."
                  attempts := 1, delays := [] } := by
              simp only [queryFrom, htr]
            rw [he] at hi
            simp at hi
        | connError m =>
            have he : queryFrom transport baseDelay first (r + 1) =
                { answer := none
                  error := some ("Error communicating with the Gemini API: " ++ m)
                  attempts := 1, delays := [] } := by
              simp only [queryFrom, htr]
            rw [he] at hi
            simp at hi
        | httpError st m =>
            by_cases h5 : 500 ≤ st ∧ st < 600
            · have he : queryFrom transport baseDelay first (r + 1) =
                  { answer := (queryFrom transport baseDelay (first + 1) r).answer
                    error := (queryFrom transport baseDelay (first + 1) r).error
                    attempts := (queryFrom transport baseDelay (first + 1) r).attempts + 1
                    delays := baseDelay * 2 ^ first ::
                      (queryFrom transport baseDelay (first + 1) r).delays } := by
                simp only [queryFrom, htr, if_pos h5]
              rw [he] at hi ⊢
              cases i with
              | zero => simp
              | succ j =>
                  have hj : j < (queryFrom transport baseDelay (first + 1) r).delays.length := by
                    simpa using hi
                  have hrec := ih (first + 1) j hj
                  calc (baseDelay * 2 ^ first ::
                          (queryFrom transport baseDelay (first + 1) r).delays).getD (j + 1) 0
                      = (queryFrom transport baseDelay (first + 1) r).delays.getD j 0 := rfl
                    _ = baseDelay * 2 ^ (first + 1 + j) := hrec
                    _ = baseDelay * 2 ^ (first + (j + 1)) := by
                        rw [show first + (j + 1) = first + 1 + j from by omega]
            · have he : queryFrom transport baseDelay first (r + 1) =
                  { answer := none
                    error := some ("Error communicating with the Gemini API: " ++ m)
                    attempts := 1, delays := [] } := by
                simp only [queryFrom, htr, if_neg h5]
              rw [he] at hi
              simp at hi
  · rfl

/-- Witness for the amended C3: with the always-503 transport the third
delay (index 2) is `1 * 2^(0+2) = 4`. -/
theorem backoff_delays_amended_witness :
    2 < (queryFrom always503 1 0 3).delays.length ∧
    (queryFrom always503 1 0 3).delays.getD 2 0 = 1 * 2 ^ (0 + 2) :=
  ⟨by decide, backoff_delays_amended.1 always503 1 0 3 2 (by decide)⟩

/-- **C5.** If every attempt fails with HTTP 503, `query` issues exactly 3
attempts and then returns an absent answer with the fixed "server remains
unavailable" message (the recorded backoff delays being `1, 2, 4`). -/
theorem query_exhausts_on_persistent_503 (key : String) (hkey : key ≠ "")
    (transport : Transport)
    (h : ∀ n, n < 3 → ∃ m, transport n = .httpError 503 m) :
    geminiQuery (some key) transport =
      { answer := none
        error := some "The Gemini server remains unavailable after several attempts."
        attempts := 3
        delays := [1, 2, 4] } := by
  rcases h 0 (by omega) with ⟨m0, e0⟩
  rcases h 1 (by omega) with ⟨m1, e1⟩
  rcases h 2 (by omega) with ⟨m2, e2⟩
  have h5 : 500 ≤ 503 ∧ 503 < 600 := by omega
  have hq : geminiQuery (some key) transport = queryFrom transport 1 0 3 := by
    simp [geminiQuery, hkey]
  rw [hq]
  simp only [queryFrom, e0, e1, e2, if_pos h5]
  rfl

/-- Witness for C5 at the always-503 transport. -/
theorem query_exhausts_on_persistent_503_witness :
    (("key" : String) ≠ "" ∧ ∀ n, n < 3 → ∃ m, always503 n = .httpError 503 m) ∧
    geminiQuery (some "key") always503 =
      { answer := none
        error := some "The Gemini server remains unavailable after several attempts."
        attempts := 3
        delays := [1, 2, 4] } :=
  have h1 : ("key" : String) ≠ "" := by decide
  have h2 : ∀ n, n < 3 → ∃ m, always503 n = .httpError 503 m :=
    fun _ _ => ⟨"503 Server Error: Service Unavailable", rfl⟩
  ⟨⟨h1, h2⟩, query_exhausts_on_persistent_503 "key" h1 always503 h2⟩

/-- **C6.** A non-transient first failure — an HTTP error outside the
500–599 range (e.g. 404), or a connection-level failure carrying no
response — makes `query` return, after exactly 1 attempt and with no
retry delay, an absent answer and the descriptive communication error. -/
theorem query_no_retry_on_non_transient (key : String) (hkey : key ≠ "")
    (transport : Transport) :
    (∀ st m, transport 0 = .httpError st m → ¬(500 ≤ st ∧ st < 600) →
        geminiQuery (some key) transport =
          { answer := none
            error := some ("Error communicating with the Gemini API: " ++ m)
            attempts := 1, delays := [] }) ∧
    (∀ m, transport 0 = .connError m →
        geminiQuery (some key) transport =
          { answer := none
            error := some ("Error communicating with the Gemini API: " ++ m)
            attempts := 1, delays := [] }) := by
  have hq : geminiQuery (some key) transport = queryFrom transport 1 0 3 := by
    simp [geminiQuery, hkey]
  constructor
  · intro st m htr h5
    rw [hq]
    simp only [queryFrom, htr, if_neg h5]
  · intro m htr
    rw [hq]
    simp only [queryFrom, htr]

/-- A transport that fails with HTTP 404 on every attempt. -/
def always404 : Transport := fun _ => .httpError 404 "404 Client Error: Not Found"

/-- Witness for C6 at a 404 transport. -/
theorem query_no_retry_on_non_transient_witness :
    (("key" : String) ≠ "" ∧ always404 0 = .httpError 404 "404 Client Error: Not Found" ∧
      ¬(500 ≤ 404 ∧ 404 < 600)) ∧
    geminiQuery (some "key") always404 =
      { answer := none
        error := some ("Error communicating with the Gemini API: " ++
          "404 Client Error: Not Found")
        attempts := 1, delays := [] } :=
  have h1 : ("key" : String) ≠ "" := by decide
  have h5 : ¬(500 ≤ 404 ∧ 404 < 600) := by omega
  ⟨⟨h1, rfl, h5⟩,
    (query_no_retry_on_non_transient "key" h1 always404).1 404
      "404 Client Error: Not Found" rfl h5⟩

/-- **C7.** Without a configured API credential (`GEMINI_API_KEY` unset,
or set to the empty string, both falsy in `if not api_key`), `query`
returns an absent answer with the configuration error message; no network
attempt is issued and no retry delay occurs. -/
theorem query_missing_credential (transport : Transport) :
    geminiQuery none transport =
      { answer := none
        error := some "GEMINI_API_KEY not found in configuration."
        attempts := 0, delays := [] } ∧
    geminiQuery (some "") transport =
      { answer := none
        error := some "GEMINI_API_KEY not found in configuration."
        attempts := 0, delays := [] } :=
  ⟨rfl, rfl⟩

/-- A hypothetical handler that claims every query and whose `process`
raises an internal fault (any `BaseHandler` subclass may do this: the
contract is not enforced by `route_query`). -/
def raisingHandler : Handler :=
  { name := "RaisingHandler", isFallback := false
    can_handle := fun _ => true
    process := fun _ => .error "RuntimeError: internal fault" }

/-- **C4 (counterexample).** `route_query` installs no exception handler:
a handler whose `process` raises propagates the fault to `route_query`'s
caller, and the caller does *not* receive a `failed` `HandlerResponse`. -/
theorem route_query_fault_escapes_counterexample :
    route_query [raisingHandler] "hello" = .error "RuntimeError: internal fault" ∧
    ¬ ∃ r : HandlerResponse, route_query [raisingHandler] "hello" = .ok r ∧
        r.status = "failed" := by
  refine ⟨rfl, ?_⟩
  rintro ⟨r, hr, -⟩
  rw [show route_query [raisingHandler] "hello" =
    .error "RuntimeError: internal fault" from rfl] at hr
  exact Except.noConfusion hr

/-- **C4 (amended).** `route_query` itself never converts a handler fault:
if the selected handler's `process` raises, the very same fault escapes
`route_query` to its caller (it is the interactive session loop that
catches it).  The conversion of internal errors into `failed`
`HandlerResponse`s happens inside the handlers themselves — e.g. the
repository's `ChatHandler` turns every client error (here: the missing
credential) into a `failed` response rather than raising. -/
theorem route_query_fault_propagation_amended :
    (∀ (hs : List Handler) (q : String) (h : Handler) (f : String),
        hs.find? (fun x => x.can_handle q) = some h →
        h.process q = .error f →
        route_query hs q = .error f) ∧
    (∀ (transport : Transport) (q : String),
        chatProcess none transport q =
          .ok { status := "failed"
                display_message := "GEMINI_API_KEY not found in configuration."
                metadata := [] }) := by
  constructor
  · intro hs q h f hf hp
    rw [route_query_find_some hf, hp]
  · intro transport q
    rfl

/-- Witness for the amended C4: the raising handler's fault escapes
`route_query` unchanged. -/
theorem route_query_fault_propagation_amended_witness :
    ([raisingHandler].find? (fun x => x.can_handle "ping") = some raisingHandler ∧
      raisingHandler.process "ping" = .error "RuntimeError: internal fault") ∧
    route_query [raisingHandler] "ping" = .error "RuntimeError: internal fault" :=
  ⟨⟨rfl, rfl⟩,
    route_query_fault_propagation_amended.1 [raisingHandler] "ping" raisingHandler
      "RuntimeError: internal fault" rfl rfl⟩

/-- **C10.** `SystemHandler.can_handle` is true exactly when the
lowercased query is the string `"cls"`; in particular `"clear"` is not
claimed by `SystemHandler`, and in the registry built from the three
repository handlers (whatever the client/git oracles) the query `"clear"`
is processed by the `ChatHandler` fallback. -/
theorem system_handler_claims_only_cls :
    (∀ q : String, systemCanHandle q = true ↔ pyLower q = "cls") ∧
    systemCanHandle "clear" = false ∧
    (∀ (apiKey : Option String) (transport : Transport) (git : GitOutcome),
        (routeInstr
          (load_handlers
            [chatHandler apiKey transport, gitHandler apiKey transport git, systemHandler])
          "clear").processed = ["ChatHandler"]) := by
  refine ⟨?_, by decide, ?_⟩
  · intro q
    show (["cls"].contains (pyLower q)) = true ↔ pyLower q = "cls"
    simp [List.contains]
  · intro apiKey transport git
    rfl

/-- A successful lookup only returns stored bindings. -/
theorem pyLookup_mem : ∀ {d : PyDict} {k : String} {v : PyValue},
    d.lookup k = some v → (k, v) ∈ d := by
  intro d
  induction d with
  | nil => intro k v h; simp [List.lookup] at h
  | cons kv t ih =>
      rcases kv with ⟨a, b⟩
      intro k v h
      cases hk : k == a with
      | true =>
          rw [List.lookup_cons] at h
          rw [hk] at h
          cases h
          have : k = a := by simpa using hk
          subst this
          exact List.mem_cons_self _ _
      | false =>
          rw [List.lookup_cons] at h
          rw [hk] at h
          exact List.mem_cons_of_mem _ (ih h)

/-- In a dict with no duplicate keys, every stored binding is found by
lookup. -/
theorem pyLookup_of_mem : ∀ {d : PyDict}, d.nodupKeys →
    ∀ {k : String} {v : PyValue}, (k, v) ∈ d → d.lookup k = some v := by
  intro d
  induction d with
  | nil => intro _ k v h; simp at h
  | cons kv t ih =>
      rcases kv with ⟨a, b⟩
      intro hd k v h
      have hd' : (a ∉ t.map Prod.fst) ∧ PyDict.nodupKeys t := by
        simpa [PyDict.nodupKeys] using hd
      rcases List.mem_cons.mp h with heq | hmem
      · cases heq
        simp [List.lookup_cons]
      · have hk : ¬(k = a) := by
          intro hka
          subst hka
          exact hd'.1 (List.mem_map.mpr ⟨(k, v), hmem, rfl⟩)
        rw [List.lookup_cons, show (k == a) = false by simpa using hk]
        exact ih hd'.2 hmem

/-- On well-formed dicts, the executable dict equality coincides with
extensional equality of lookups. -/
theorem pyDictEq_iff_lookup {d e : PyDict} (hd : d.nodupKeys) (he : e.nodupKeys) :
    pyDictEq d e = true ↔ ∀ k, d.lookup k = e.lookup k := by
  unfold pyDictEq
  rw [Bool.and_eq_true, List.all_eq_true, List.all_eq_true]
  constructor
  · rintro ⟨h1, h2⟩ k
    cases hc : d.lookup k with
    | some v =>
        have hm := pyLookup_mem hc
        have h1' := h1 _ hm
        simp only [beq_iff_eq] at h1'
        exact h1'.symm
    | none =>
        cases hce : e.lookup k with
        | none => rfl
        | some v =>
            have hm := pyLookup_mem hce
            have h2' := h2 _ hm
            simp only [beq_iff_eq] at h2'
            rw [hc] at h2'
            exact Option.noConfusion h2'
  · intro hk
    constructor
    · intro x hx
      simp only [beq_iff_eq]
      rw [← hk x.1]
      exact pyLookup_of_mem hd (by simpa using hx)
    · intro x hx
      simp only [beq_iff_eq]
      rw [hk x.1]
      exact pyLookup_of_mem he (by simpa using hx)

/-- **C9.** A constructed `HandlerResponse` is immutable — every attribute
assignment raises `FrozenInstanceError` and returns no updated value — its
`metadata` defaults to the empty dict when not supplied, its equality is
structural (it holds exactly when the `status` and `display_message`
fields agree and the `metadata` dicts hold the same keys with the same
values, insertion order irrelevant), and its hash is likewise determined
by the field values (degenerately so: the generated `__hash__` hashes the
field tuple, and the dict field makes it raise `TypeError` for every
instance). -/
theorem response_contract_immutable_structural :
    (∀ (r : HandlerResponse) (f : ResponseField) (v : PyValue),
        r.setattr f v = .error .frozenInstanceError) ∧
    (∀ s m, (HandlerResponse.make s m none).metadata = []) ∧
    (∀ r t : HandlerResponse, r.metadata.nodupKeys → t.metadata.nodupKeys →
        (r.pyEq t = true ↔
          r.status = t.status ∧ r.display_message = t.display_message ∧
            ∀ k, r.metadata.lookup k = t.metadata.lookup k)) ∧
    (∀ (hashStr : String → Int) (r t : HandlerResponse),
        r.pyEq t = true → r.pyHash hashStr = t.pyHash hashStr) := by
  refine ⟨fun _ _ _ => rfl, fun _ _ => rfl, ?_, ?_⟩
  · intro r t hr ht
    unfold HandlerResponse.pyEq
    rw [Bool.and_eq_true, Bool.and_eq_true, beq_iff_eq, beq_iff_eq,
      pyDictEq_iff_lookup hr ht]
    exact and_assoc
  · intro hashStr r t _
    rfl

/-- Two structurally equal responses whose metadata dicts differ only in
insertion order, for the C9 witness. -/
def wResponseA : HandlerResponse :=
  HandlerResponse.make "success" "ok" (some [("a", .pint 1), ("b", .pstr "x")])

/-- The same bindings in the opposite insertion order. -/
def wResponseB : HandlerResponse :=
  HandlerResponse.make "success" "ok" (some [("b", .pstr "x"), ("a", .pint 1)])

/-- Witness for C9: the structural-equality characterisation applied to
two concrete responses with reordered metadata. -/
theorem response_contract_immutable_structural_witness :
    (wResponseA.metadata.nodupKeys ∧ wResponseB.metadata.nodupKeys) ∧
    (wResponseA.pyEq wResponseB = true ↔
      wResponseA.status = wResponseB.status ∧
      wResponseA.display_message = wResponseB.display_message ∧
        ∀ k, wResponseA.metadata.lookup k = wResponseB.metadata.lookup k) :=
  ⟨⟨by decide, by decide⟩,
    response_contract_immutable_structural.2.2.1 wResponseA wResponseB
      (by decide) (by decide)⟩

end Orpheus
